import Mathlib

/-!
Shallow embedding of `djstripe/models.py` (local mirror of a remote billing
provider).  Machine state is modelled with plain Lean structures; Django
querysets become `List`s, datetimes become `Nat` timestamps, and the remote
provider is passed in as explicit outcome parameters.  Provider errors keep
the distinction the source draws between `InvalidRequestError` and other
`StripeError` subclasses, because different methods catch different classes.
-/

namespace Djstripe

/-- The source deals with two provider error families: `InvalidRequestError`
(a subclass) and the base `StripeError`.  `Customer.purge`, `Card.remove` and
`Customer.retry_unpaid_invoices` catch only `InvalidRequestError`;
`Event.process` catches every `StripeError`. -/
inductive StripeErrorKind
  | invalidRequest
  | otherStripe
deriving DecidableEq, Repr

/-- A provider-originated error: its class, human-readable message and
HTTP-style body (`exc.http_body`, possibly absent). -/
structure StripeExc where
  kind : StripeErrorKind
  msg : String
  http_body : Option String
deriving DecidableEq, Repr

/-- Local (django-side) exceptions raised by the methods under study. -/
inductive DjError
  | multipleSubscription
  | typeError
  | cancellationFailure
deriving DecidableEq, Repr

/-- A `Subscription` row: the fields of `djstripe` subscriptions that the
methods under study read (`status`, `current_period_end`, `trial_end`,
`canceled_at`, `cancel_at_period_end`, `start`, plus the plan link). -/
structure Subscription where
  stripe_id : String
  plan_id : String
  status : String
  current_period_end : Nat
  trial_end : Option Nat
  canceled_at : Option Nat
  start : Nat
  cancel_at_period_end : Bool
deriving DecidableEq, Repr

/-- `Subscription.is_status_current`: status in ["trialing", "active"]. -/
def Subscription.is_status_current (s : Subscription) : Bool :=
  s.status == "trialing" || s.status == "active"

/-- `Subscription.is_period_current`: `current_period_end > timezone.now()`. -/
def Subscription.is_period_current (s : Subscription) (now : Nat) : Bool :=
  now < s.current_period_end

/-- `Subscription.is_valid`: returns False unless both `is_status_current`
and `is_period_current` hold. -/
def Subscription.is_valid (s : Subscription) (now : Nat) : Bool :=
  s.is_status_current && s.is_period_current now

/-- The `Customer` fields touched by the accessors and by `purge`:
the related `subscriptions` queryset (in DB order, `first()` = head),
the subscriber link, the default source, the source list and `date_purged`.
Sources are identified here by their stripe ids. -/
structure Customer where
  stripe_id : String
  subscriber : Option String
  default_source : Option String
  sources : List String
  subscriptions : List Subscription
  date_purged : Option Nat
deriving DecidableEq, Repr

/-- `Customer.subscription` property: count 0 returns None, count 1 returns
`subscriptions.first()`, otherwise raises `MultipleSubscriptionException`. -/
def Customer.subscription (c : Customer) : Except DjError (Option Subscription) :=
  let subscription_count := c.subscriptions.length
  if subscription_count = 0 then
    .ok none
  else if subscription_count = 1 then
    .ok c.subscriptions.head?
  else
    .error .multipleSubscription

/-- `Customer._plan_none_check`: raises TypeError when the subscription count
differs from one (the message notwithstanding, it fires on zero as well). -/
def Customer.plan_none_check (c : Customer) : Except DjError Unit :=
  if c.subscriptions.length ≠ 1 then .error .typeError else .ok ()

/-- `Customer.has_active_subscription`.  With `plan = None` it runs
`_plan_none_check` and then asks `subscriptions.first().is_valid()`; with a
plan it checks `any` over `subscriptions.filter(plan__id=plan)`.  The
surrounding `except Subscription.DoesNotExist: return False` never fires on
these paths (`first`/`filter` do not raise it), so it is not modelled. -/
def Customer.has_active_subscription (c : Customer) (plan : Option String)
    (now : Nat) : Except DjError Bool :=
  match plan with
  | none =>
    match c.plan_none_check with
    | .error e => .error e
    | .ok _ =>
      match c.subscriptions.head? with
      | some s => .ok (s.is_valid now)
      -- unreachable: plan_none_check passed, so exactly one row exists
      | none => .ok false
  | some p =>
    .ok ((c.subscriptions.filter (fun s => s.plan_id == p)).any
      (fun s => s.is_valid now))

/-- The at_period_end flag actually passed to the remote
`subscription.cancel(...)` call: forced to False when `trial_end` is set and
strictly in the future (`subscription.trial_end > timezone.now()`). -/
def cancel_effective_flag (s : Subscription) (now : Nat) (at_period_end : Bool) : Bool :=
  match s.trial_end with
  | some te => if now < te then false else at_period_end
  | none => at_period_end

/-- `Customer.cancel_subscription` up to the remote call: resolves the target
subscription (`plan = None` requires exactly one row via `_plan_none_check`
then takes `first()`; an explicit plan uses `get(plan__id=plan)`, whose
DoesNotExist becomes `SubscriptionCancellationFailure` and whose
MultipleObjectsReturned becomes `MultipleSubscriptionException`), then
returns the subscription together with the `at_period_end` flag of the
remote cancel call. -/
def Customer.cancel_subscription (c : Customer) (plan : Option String)
    (at_period_end : Bool) (now : Nat) :
    Except DjError (Subscription × Bool) :=
  match plan with
  | none =>
    match c.plan_none_check with
    | .error e => .error e
    | .ok _ =>
      match c.subscriptions.head? with
      | some s => .ok (s, cancel_effective_flag s now at_period_end)
      -- unreachable: plan_none_check passed, so exactly one row exists
      | none => .error .typeError
  | some p =>
    match c.subscriptions.filter (fun s => s.plan_id == p) with
    | [] => .error .cancellationFailure
    | [s] => .ok (s, cancel_effective_flag s now at_period_end)
    | _ => .error .multipleSubscription

/-! ## Invoice synchronization (`Invoice.sync_from_stripe_data`) -/

/-- One element of `data["lines"]["data"]` in an invoice payload: the keys
the sync loop reads.  `amount` is the raw provider amount (the source then
divides by 100; the division is kept symbolic by storing the raw value).
`plan` is the plan id pulled from `item["plan"]["id"]` when present (the
`plan_from_stripe_id` settings lookup is modelled as the id itself). -/
structure LineItemPayload where
  stripe_id : String
  period_start : Nat
  period_end : Nat
  amount : Int
  currency : String
  proration : Bool
  description : Option String
  line_type : String
  plan : Option String
  quantity : Option Int
deriving DecidableEq, Repr

/-- An `InvoiceItem` row (`stripe_id` plus every field the sync writes). -/
structure InvoiceItem where
  stripe_id : String
  amount : Int
  currency : String
  proration : Bool
  description : String
  line_type : String
  plan : String
  period_start : Nat
  period_end : Nat
  quantity : Option Int
deriving DecidableEq, Repr

/-- The `Invoice` fields the line-item loop writes: `period_end` (nullable
until first set) and the related `items` rows. -/
structure Invoice where
  period_end : Option Nat
  items : List InvoiceItem
deriving DecidableEq, Repr

/-- The row content written for a payload line, both by the `get_or_create`
defaults and by the not-created update branch (the two branches write the
same field values). -/
def invoice_item_of_line (item : LineItemPayload) : InvoiceItem :=
  { stripe_id := item.stripe_id, amount := item.amount,
    currency := item.currency, proration := item.proration,
    description := item.description.getD "", line_type := item.line_type,
    plan := item.plan.getD "", period_start := item.period_start,
    period_end := item.period_end, quantity := item.quantity }

/-- `invoice.items.get_or_create(stripe_id=...)` followed by the
overwrite-all-fields branch when the row already existed. -/
def upsert_invoice_item (items : List InvoiceItem) (item : LineItemPayload) :
    List InvoiceItem :=
  if items.any (fun it => it.stripe_id == item.stripe_id) then
    items.map (fun it =>
      if it.stripe_id == item.stripe_id then invoice_item_of_line item else it)
  else
    items ++ [invoice_item_of_line item]

/-- The line-item loop of `Invoice.sync_from_stripe_data`: for each payload
line in order, assign `invoice.period_end` and upsert the item row.  (The
enclosing sync also mirrors invoice-level fields and may fetch a charge;
neither touches `period_end` or the items.) -/
def Invoice.sync_lines (invoice : Invoice) (lines : List LineItemPayload) :
    Invoice :=
  lines.foldl
    (fun inv item =>
      { inv with period_end := some item.period_end,
                 items := upsert_invoice_item inv.items item })
    invoice

/-! ## Invoice retry (`Customer.retry_unpaid_invoices`) -/

/-- The exact message the retry loop compares against. -/
def invoice_already_paid_msg : String := "Invoice is already paid"

/-- One invoice as seen by `retry_unpaid_invoices`: its `paid`/`closed`
flags and the outcome of its remote `invoice.retry()` call (`none` when the
call succeeds). -/
structure RetryInvoice where
  paid : Bool
  closed : Bool
  retry_exc : Option StripeExc
deriving DecidableEq, Repr

/-- The `for invoice in ...: try: invoice.retry() except InvalidRequestError`
loop body: an `InvalidRequestError` whose text differs from
"Invoice is already paid" is re-raised; one with the exact text is swallowed
and the loop continues; any other `StripeError` is not caught at all. -/
def retry_loop : List RetryInvoice → Except StripeExc Unit
  | [] => .ok ()
  | inv :: rest =>
    match inv.retry_exc with
    | none => retry_loop rest
    | some exc =>
      match exc.kind with
      | .invalidRequest =>
        if exc.msg ≠ invoice_already_paid_msg then .error exc
        else retry_loop rest
      | .otherStripe => .error exc

/-- `Customer.retry_unpaid_invoices`: after `_sync_invoices()` (whose result
is the invoice list passed here), retry every invoice with
`paid=False, closed=False`. -/
def Customer.retry_unpaid_invoices (invoices : List RetryInvoice) :
    Except StripeExc Unit :=
  retry_loop (invoices.filter (fun inv => !inv.paid && !inv.closed))

/-- Benign outcomes of a retry: success, or an `InvalidRequestError` whose
message is exactly "Invoice is already paid". -/
def benign_retry_exc : Option StripeExc → Bool
  | none => true
  | some exc =>
    exc.kind == StripeErrorKind.invalidRequest
      && exc.msg == invoice_already_paid_msg

/-! ## Purge and card removal (`Customer.purge`, `Card.remove`) -/

/-- `str.startswith(...)`: character-level prefix test (the Python check on
the exception text), written over the character lists of the strings. -/
def message_startsWith (s pre : String) : Bool :=
  pre.data.isPrefixOf s.data

/-- The literal the purge/removal handlers compare against. -/
def no_such_customer_msg : String := "No such customer:"

/-- The outcome of `Customer._api_delete()`: deleting a customer that is
already gone on the provider side raises
`InvalidRequestError("No such customer: <id>")`; otherwise the call
succeeds. -/
def api_delete_exc (remote_deleted : Bool) (stripe_id : String) :
    Option StripeExc :=
  if remote_deleted then
    some { kind := .invalidRequest,
           msg := no_such_customer_msg ++ (" " ++ stripe_id),
           http_body := none }
  else
    none

/-- Modelled from the spec: `StripeCustomer.purge` (the superclass step
called by `Customer.purge`, defined outside this file's source).  The spec
assigns purge no observable step beyond the ones the subclass performs
(clearing linkage and sources, stamping `date_purged`), so the superclass
call is the identity on the tracked fields. -/
def StripeCustomer.purge (c : Customer) : Customer := c

/-- The local steps of `Customer.purge` after the remote delete: clear the
subscriber link, clear the default source, remove every payment source
(each via `Card.remove`, which always deletes the local row — see
`Card.remove`), run the superclass purge, stamp `date_purged` with the
current time, save. -/
def purge_locally (c : Customer) (now : Nat) : Customer :=
  let c := { c with subscriber := none }
  let c := { c with default_source := none }
  let c := { c with sources := [] }
  let c := StripeCustomer.purge c
  { c with date_purged := some now }

/-- `Customer.purge` given the outcome of the remote `_api_delete()` call:
an `InvalidRequestError` whose text starts with "No such customer:" is
ignored, any other exception is re-raised; then the local steps run. -/
def Customer.purge (c : Customer) (delete_exc : Option StripeExc) (now : Nat) :
    Except StripeExc Customer :=
  match delete_exc with
  | some exc =>
    if exc.kind == .invalidRequest
        && message_startsWith exc.msg no_such_customer_msg then
      .ok (purge_locally c now)
    else
      .error exc
  | none => .ok (purge_locally c now)

/-- A purge "world": the local customer row plus whether the provider-side
customer record has already been deleted. -/
structure PurgeWorld where
  customer : Customer
  remote_deleted : Bool
deriving DecidableEq, Repr

/-- One `purge()` call against the world: the remote delete outcome comes
from the provider state, and afterwards the provider-side record is gone
whichever branch ran. -/
def PurgeWorld.purge (w : PurgeWorld) (now : Nat) : Except StripeExc PurgeWorld :=
  match Customer.purge w.customer
      (api_delete_exc w.remote_deleted w.customer.stripe_id) now with
  | .ok c => .ok { customer := c, remote_deleted := true }
  | .error e => .error e

/-- `Card.remove` given the outcome of the remote `_api_delete()` call.
The source catches `InvalidRequestError` and tests whether the text starts
with "No such customer:", but — unlike `Customer.purge` — the `if` has no
re-raise branch, so both branches fall through to the local `self.delete()`.
Other `StripeError`s are not caught.  `.ok true` means the local row was
deleted. -/
def Card.remove (delete_exc : Option StripeExc) : Except StripeExc Bool :=
  match delete_exc with
  | none => .ok true
  | some exc =>
    match exc.kind with
    | .invalidRequest =>
      if message_startsWith exc.msg no_such_customer_msg then
        -- already deleted on the provider side: ignored
        .ok true
      else
        -- no `else: raise` in the source: silently swallowed as well
        .ok true
    | .otherStripe => .error exc

/-! ## Transfers (`Transfer.process_transfer`) -/

/-- The triggering event passed to `process_transfer` (only its type is
read). -/
structure TriggerEvent where
  event_type : String
deriving DecidableEq, Repr

/-- The event type that triggers the extra remote status refresh. -/
def transfer_updated_type : String := "transfer.updated"

/-- One element of `stripe_object["summary"]["charge_fee_details"]`:
`application` and `description` default to "" via `.get`, `amount` is the
raw provider amount (the /100 conversion kept symbolic), `fee_type` is the
payload's "type" key. -/
structure FeePayload where
  amount : Int
  application : Option String
  description : Option String
  fee_type : String
deriving DecidableEq, Repr

/-- A `TransferChargeFee` row. -/
structure TransferFee where
  amount : Int
  application : String
  description : String
  kind : String
deriving DecidableEq, Repr

/-- The transfer payload: its remote id, `status`, the fee-details list and
the remaining mirrored columns, kept opaque. -/
structure TransferPayload where
  stripe_id : String
  status : String
  charge_fee_details : List FeePayload
  other_data : String
deriving DecidableEq, Repr

/-- A `Transfer` row: id, status, the (deprecated) event link, the child
fee rows, and the remaining mirrored columns, kept opaque. -/
structure Transfer where
  stripe_id : String
  status : String
  event : Option TriggerEvent
  charge_fee_details : List TransferFee
  other_data : String
deriving DecidableEq, Repr

/-- The `transfer.charge_fee_details.create(...)` row built from one fee
payload. -/
def transfer_fee_of_payload (fee : FeePayload) : TransferFee :=
  { amount := fee.amount, application := fee.application.getD "",
    description := fee.description.getD "", kind := fee.fee_type }

/-- `Transfer.process_transfer`: look up the transfer by the payload
(`existing` is the lookup result; `none` means `DoesNotExist`, so
`_create_from_stripe_object` builds a fresh row from the payload).  The
event link is assigned on both paths.  On creation the fee rows are
materialized from the fee-details list; on update only `status` is copied
from the payload.  Finally, when the triggering event's type is
"transfer.updated", `update_status()` makes a remote status-refresh call —
modelled from the spec (the method lives outside this file's source) as
writing back `remote_status`, the status the provider returns.  The second
component reports whether that remote call was made. -/
def Transfer.process_transfer (existing : Option Transfer)
    (event : Option TriggerEvent) (stripe_object : TransferPayload)
    (remote_status : String) : Transfer × Bool :=
  let created := existing.isNone
  let transfer :=
    match existing with
    | some t => t
    | none =>
      { stripe_id := stripe_object.stripe_id, status := stripe_object.status,
        event := none, charge_fee_details := [],
        other_data := stripe_object.other_data }
  let transfer := { transfer with event := event }
  let transfer :=
    if created then
      { transfer with charge_fee_details :=
          stripe_object.charge_fee_details.map transfer_fee_of_payload }
    else
      { transfer with status := stripe_object.status }
  match event with
  | some ev =>
    if ev.event_type == transfer_updated_type then
      ({ transfer with status := remote_status }, true)
    else
      (transfer, false)
  | none => (transfer, false)

/-! ## Events (`Event.validate`, `Event.process`) -/

/-- An `Event` row: its dot-separated `type`, the tri-state `valid` flag
(None = unconfirmed), the `processed` flag, and `webhook_message`, the
stored payload in its canonical form (`json.dumps(..., sort_keys=True)`
round-trip); canonical payloads are modelled as strings. -/
structure Event where
  event_type : String
  valid : Option Bool
  processed : Bool
  webhook_message : String
deriving DecidableEq, Repr

/-- `Event.validate`: re-fetch the event from the provider (`remote_message`
is the canonical form of the re-fetched data) and unconditionally set
`valid` to whether it matches the stored payload, then save.  The method
contains no guard on a previously confirmed flag. -/
def Event.validate (e : Event) (remote_message : String) : Event :=
  { e with valid := some (e.webhook_message == remote_message) }

/-- The outcome of `webhooks.call_handlers(...)` for an event: success, a
raised `StripeError` (of either family — `Event.process` catches the base
class), or a raised non-provider exception. -/
inductive HandlerOutcome
  | ok
  | raisesStripe (exc : StripeExc)
  | raisesOther (msg : String)
deriving DecidableEq, Repr

/-- An `EventProcessingException` row: captured error data, message, and a
formatted stack trace (its text is irrelevant here, only its presence). -/
structure ExcLogEntry where
  data : String
  message : String
  has_traceback : Bool
deriving DecidableEq, Repr

/-- `EventProcessingException.log`: persists a row with
`data = exc.http_body or ""`, `message = str(exc)` and
`traceback = format_exc()`. -/
def EventProcessingException.log (exc : StripeExc) : ExcLogEntry :=
  { data := exc.http_body.getD "", message := exc.msg, has_traceback := true }

/-- Everything observable about one `Event.process` call: the event row
afterwards, the persisted `EventProcessingException` if any, the
`webhook_processing_error` signal if sent, whether the per-type success
signal ran, and any exception propagating to the caller. -/
structure ProcessResult where
  event : Event
  exc_log : Option ExcLogEntry
  failure_signal : Option StripeExc
  success_signal : Bool
  raised : Option String
deriving DecidableEq, Repr

/-- `Event.process`: guarded by `if self.valid and not self.processed` (the
Python truthiness of `self.valid` means exactly `valid == True`).  The
`type.split(".", 1)` unpacking raises ValueError when the type has no dot.
Handler work runs in a try block: on success the per-type signal is sent and
`processed` is set; a raised `StripeError` is caught, logged via
`EventProcessingException.log` and broadcast on `webhook_processing_error`,
and nothing propagates; any other exception is not caught. -/
def Event.process (e : Event) (outcome : HandlerOutcome) : ProcessResult :=
  if e.valid == some true && !e.processed then
    -- the unpack of `split(".", 1)` fails exactly when no "." occurs
    if !(e.event_type.data.contains '.') then
      { event := e, exc_log := none, failure_signal := none,
        success_signal := false, raised := some "ValueError" }
    else
      match outcome with
      | .ok =>
        { event := { e with processed := true }, exc_log := none,
          failure_signal := none, success_signal := true, raised := none }
      | .raisesStripe exc =>
        { event := e, exc_log := some (EventProcessingException.log exc),
          failure_signal := some exc, success_signal := false,
          raised := none }
      | .raisesOther m =>
        { event := e, exc_log := none, failure_signal := none,
          success_signal := false, raised := some m }
  else
    { event := e, exc_log := none, failure_signal := none,
      success_signal := false, raised := none }

/-! ## Fixtures for the concrete witnesses and counterexamples -/

/-- A fixture: a mid-trial subscription (trial ends at time 50). -/
def trialSub : Subscription :=
  { stripe_id := "sub_1", plan_id := "gold", status := "trialing",
    current_period_end := 100, trial_end := some 50, canceled_at := none,
    start := 0, cancel_at_period_end := false }

/-- A fixture: a customer holding only `trialSub`. -/
def trialCustomer : Customer :=
  { stripe_id := "cus_2", subscriber := some "alice", default_source := none,
    sources := [], subscriptions := [trialSub], date_purged := none }

/-- A fixture: a customer with no subscription rows. -/
def emptyCustomer : Customer :=
  { stripe_id := "cus_3", subscriber := some "bob", default_source := none,
    sources := [], subscriptions := [], date_purged := none }

/-- A fixture: a provider error that is not an `InvalidRequestError` but
carries the exact "Invoice is already paid" text. -/
def alreadyPaidOtherExc : StripeExc :=
  { kind := .otherStripe, msg := "Invoice is already paid", http_body := none }

/-- A fixture: an unpaid, open invoice whose retry raises
`alreadyPaidOtherExc`. -/
def alreadyPaidOtherInvoice : RetryInvoice :=
  { paid := false, closed := false, retry_exc := some alreadyPaidOtherExc }

/-- A fixture: an `InvalidRequestError` with the exact
"Invoice is already paid" text. -/
def alreadyPaidInvalidReqExc : StripeExc :=
  { kind := .invalidRequest, msg := "Invoice is already paid", http_body := none }

/-- A fixture: an unpaid, open invoice whose retry raises
`alreadyPaidInvalidReqExc`. -/
def alreadyPaidInvalidReqInvoice : RetryInvoice :=
  { paid := false, closed := false, retry_exc := some alreadyPaidInvalidReqExc }

/-- A fixture: an unpaid, open invoice whose retry succeeds. -/
def retryOkInvoice : RetryInvoice :=
  { paid := false, closed := false, retry_exc := none }

/-- A fixture: a live customer with one card, before any purge. -/
def purgeCustomer0 : Customer :=
  { stripe_id := "cus_9", subscriber := some "carol",
    default_source := some "card_1", sources := ["card_1"],
    subscriptions := [], date_purged := none }

/-- A fixture: the purge world before any purge (provider record alive). -/
def purgeWorld0 : PurgeWorld :=
  { customer := purgeCustomer0, remote_deleted := false }

/-- A fixture: the customer row after a purge at time 1. -/
def purgedCustomer1 : Customer :=
  { stripe_id := "cus_9", subscriber := none, default_source := none,
    sources := [], subscriptions := [], date_purged := some 1 }

/-- A fixture: the world after the first purge, at time 1. -/
def purgeWorld1 : PurgeWorld :=
  { customer := purgedCustomer1, remote_deleted := true }

/-- A fixture: the customer row after a purge at time 2. -/
def purgedCustomer2 : Customer :=
  { stripe_id := "cus_9", subscriber := none, default_source := none,
    sources := [], subscriptions := [], date_purged := some 2 }

/-- A fixture: the world after a second purge, at time 2. -/
def purgeWorld2 : PurgeWorld :=
  { customer := purgedCustomer2, remote_deleted := true }

/-- A fixture: an `InvalidRequestError` during card removal whose message is
not about a missing customer. -/
def invalidReqOtherExc : StripeExc :=
  { kind := .invalidRequest, msg := "Invalid card object", http_body := none }

/-- A fixture: the event that created a transfer. -/
def transferCreatedEvent : TriggerEvent := { event_type := "transfer.created" }

/-- A fixture: a non-"transfer.updated" follow-up event. -/
def transferPaidEvent : TriggerEvent := { event_type := "transfer.paid" }

/-- A fixture: a "transfer.updated" event. -/
def transferUpdatedEvent : TriggerEvent := { event_type := "transfer.updated" }

/-- A fixture: one fee entry of a transfer payload. -/
def feePayload1 : FeePayload :=
  { amount := 30, application := some "app_1", description := none,
    fee_type := "stripe_fee" }

/-- A fixture: a transfer payload with one fee entry. -/
def transferPayload1 : TransferPayload :=
  { stripe_id := "tr_1", status := "paid",
    charge_fee_details := [feePayload1], other_data := "amount=100" }

/-- A fixture: the already-mirrored transfer row the payload refers to. -/
def existingTransfer : Transfer :=
  { stripe_id := "tr_1", status := "pending",
    event := some transferCreatedEvent,
    charge_fee_details := [transfer_fee_of_payload feePayload1],
    other_data := "amount=100" }

/-- A fixture: a validated, unprocessed event whose stored payload is
"payload-a". -/
def confirmedEvent : Event :=
  { event_type := "charge.succeeded", valid := some true, processed := false,
    webhook_message := "payload-a" }

/-- A fixture: a provider error with a message and an HTTP body. -/
def stripeBoomExc : StripeExc :=
  { kind := .otherStripe, msg := "boom", http_body := some "errbody" }

/-- A fixture: an invoice with `period_end` already set and no items. -/
def staleInvoice : Invoice := { period_end := some 999, items := [] }

/-- A fixture: a payload line with id "a" and period end 100. -/
def lineA : LineItemPayload :=
  { stripe_id := "a", period_start := 90, period_end := 100, amount := 500,
    currency := "usd", proration := false, description := some "first",
    line_type := "subscription", plan := some "gold", quantity := some 1 }

/-- A fixture: a payload line with id "b" and the earlier period end 50. -/
def lineB : LineItemPayload :=
  { stripe_id := "b", period_start := 40, period_end := 50, amount := 700,
    currency := "usd", proration := false, description := none,
    line_type := "invoiceitem", plan := none, quantity := none }

end Djstripe

namespace Djstripe

/-- Claim C1: `Customer.subscription` returns none for zero subscription
rows, the single row for exactly one, and raises
`MultipleSubscriptionException` for two or more. -/
theorem customer_subscription_cases (c : Customer) :
    (c.subscriptions = [] → c.subscription = .ok none) ∧
    (∀ s, c.subscriptions = [s] → c.subscription = .ok (some s)) ∧
    (2 ≤ c.subscriptions.length → c.subscription = .error .multipleSubscription) := by
  refine ⟨?_, ?_, ?_⟩
  · intro h
    simp [Customer.subscription, h]
  · intro s h
    simp [Customer.subscription, h]
  · intro h
    have h0 : c.subscriptions.length ≠ 0 := by omega
    have h1 : c.subscriptions.length ≠ 1 := by omega
    simp [Customer.subscription, h0, h1]

/-- Witness for C1 at concrete customers with zero, one and two rows. -/
theorem customer_subscription_cases_witness :
    ({ stripe_id := "cus_1", subscriber := none, default_source := none,
       sources := [], subscriptions := [], date_purged := none } : Customer).subscription
      = .ok none := by
  exact (customer_subscription_cases _).1 rfl

/-- Claim C2: whenever `cancel_subscription` reaches the remote cancel call
for a subscription whose `trial_end` is set and strictly in the future, the
call is made with `at_period_end = false`, whatever flag the caller passed. -/
theorem cancel_subscription_trial_forces_flag (c : Customer) (plan : Option String)
    (at_period_end : Bool) (now : Nat) (s : Subscription) (flag : Bool)
    (hcall : c.cancel_subscription plan at_period_end now = .ok (s, flag))
    (te : Nat) (hte : s.trial_end = some te) (hfut : now < te) :
    flag = false := by
  have hflag : flag = cancel_effective_flag s now at_period_end := by
    cases plan with
    | none =>
      simp only [Customer.cancel_subscription] at hcall
      split at hcall
      · exact Except.noConfusion hcall
      · split at hcall
        · injection hcall with h
          injection h with h1 h2
          subst h1
          exact h2.symm
        · exact Except.noConfusion hcall
    | some p =>
      simp only [Customer.cancel_subscription] at hcall
      split at hcall
      · exact Except.noConfusion hcall
      · injection hcall with h
        injection h with h1 h2
        subst h1
        exact h2.symm
      · exact Except.noConfusion hcall
  subst hflag
  simp [cancel_effective_flag, hte, hfut]

/-- Witness for C2: a mid-trial subscription cancelled with
`at_period_end = true` still reaches the remote call with `false`. -/
theorem cancel_subscription_trial_forces_flag_witness :
    trialCustomer.cancel_subscription none true 10 = .ok (trialSub, false) ∧
      false = false := by
  refine ⟨rfl, ?_⟩
  exact cancel_subscription_trial_forces_flag trialCustomer none true 10
    trialSub false rfl 50 (by decide) (by decide)

/-- Claim C10: with zero subscription rows, `has_active_subscription` with
`plan = None` raises TypeError (via `_plan_none_check`) instead of returning
False. -/
theorem has_active_subscription_zero_rows_raises (c : Customer) (now : Nat)
    (h : c.subscriptions = []) :
    c.has_active_subscription none now = .error .typeError := by
  simp [Customer.has_active_subscription, Customer.plan_none_check, h]

/-- Witness for C10 at a concrete subscription-less customer. -/
theorem has_active_subscription_zero_rows_raises_witness :
    emptyCustomer.has_active_subscription none 7 = .error .typeError :=
  has_active_subscription_zero_rows_raises emptyCustomer 7 rfl

/-- Helper: the folded line loop ends with the period end of the last line,
whatever the starting invoice. -/
theorem sync_lines_period_end_of_getLast? :
    ∀ (lines : List LineItemPayload) (invoice : Invoice)
      (last : LineItemPayload), lines.getLast? = some last →
      (invoice.sync_lines lines).period_end = some last.period_end := by
  intro lines
  induction lines with
  | nil =>
    intro invoice last h
    exact Option.noConfusion h
  | cons a as ih =>
    intro invoice last h
    cases as with
    | nil =>
      simp only [List.getLast?_singleton, Option.some.injEq] at h
      subst h
      rfl
    | cons b bs =>
      rw [List.getLast?_cons_cons] at h
      exact ih _ _ h

/-- Claim C3: after the line-item loop, `period_end` equals the period end
of the last payload line (literal last write, not an aggregate), and a
payload with zero lines leaves the invoice untouched. -/
theorem invoice_sync_period_end_last (invoice : Invoice)
    (lines : List LineItemPayload) :
    (lines = [] → invoice.sync_lines lines = invoice) ∧
    (∀ last, lines.getLast? = some last →
      (invoice.sync_lines lines).period_end = some last.period_end) := by
  constructor
  · intro h
    subst h
    rfl
  · intro last h
    exact sync_lines_period_end_of_getLast? lines invoice last h

/-- Witness for C3: lines [a (end 100), b (end 50)] give `period_end = 50`:
the last processed line wins even though an aggregate maximum would be 100,
and the empty payload leaves the stale value 999 in place. -/
theorem invoice_sync_period_end_last_witness :
    staleInvoice.sync_lines [] = staleInvoice ∧
      (staleInvoice.sync_lines [lineA, lineB]).period_end = some 50 :=
  ⟨(invoice_sync_period_end_last staleInvoice []).1 rfl,
    (invoice_sync_period_end_last staleInvoice [lineA, lineB]).2 lineB rfl⟩

/-- Helper: a retry loop over benign outcomes only finishes cleanly. -/
theorem retry_loop_ok_of_all_benign :
    ∀ l : List RetryInvoice,
      l.all (fun inv => benign_retry_exc inv.retry_exc) = true →
      retry_loop l = .ok () := by
  intro l
  induction l with
  | nil => intro _; rfl
  | cons inv rest ih =>
    intro h
    rw [List.all_cons, Bool.and_eq_true] at h
    obtain ⟨hb, hrest⟩ := h
    obtain ⟨p, cl, rexc⟩ := inv
    cases rexc with
    | none => simpa [retry_loop] using ih hrest
    | some exc =>
      obtain ⟨kind, msg, body⟩ := exc
      simp only [benign_retry_exc, Bool.and_eq_true, beq_iff_eq] at hb
      obtain ⟨hkind, hmsg⟩ := hb
      subst hkind
      subst hmsg
      simpa [retry_loop] using ih hrest

/-- Helper: an escaping error is the retry outcome of a non-benign invoice
in the list. -/
theorem retry_loop_error_mem :
    ∀ (l : List RetryInvoice) (exc : StripeExc),
      retry_loop l = .error exc →
      ∃ inv ∈ l, inv.retry_exc = some exc ∧
        benign_retry_exc (some exc) = false := by
  intro l
  induction l with
  | nil =>
    intro exc h
    exact Except.noConfusion h
  | cons inv rest ih =>
    intro exc h
    obtain ⟨p, cl, rexc⟩ := inv
    cases rexc with
    | none =>
      simp only [retry_loop] at h
      obtain ⟨i, hi, hrest⟩ := ih exc h
      exact ⟨i, List.mem_cons_of_mem _ hi, hrest⟩
    | some e =>
      obtain ⟨kind, msg, body⟩ := e
      cases kind with
      | invalidRequest =>
        by_cases hmsg : msg = invoice_already_paid_msg
        · simp only [retry_loop, hmsg, ne_eq, not_true_eq_false, if_false,
            reduceCtorEq] at h
          obtain ⟨i, hi, hrest⟩ := ih exc h
          exact ⟨i, List.mem_cons_of_mem _ hi, hrest⟩
        · simp only [retry_loop, ne_eq, hmsg, not_false_eq_true, if_true,
            Except.error.injEq] at h
          subst h
          refine ⟨_, List.mem_cons_self _ _, rfl, ?_⟩
          simp [benign_retry_exc, hmsg]
      | otherStripe =>
        simp only [retry_loop, Except.error.injEq] at h
        subst h
        refine ⟨_, List.mem_cons_self _ _, rfl, ?_⟩
        simp [benign_retry_exc]

/-- Counterexample for C4: a provider error that is not an
`InvalidRequestError` but whose message is exactly "Invoice is already paid"
propagates out of `retry_unpaid_invoices` instead of being swallowed, so
message text alone does not decide the outcome. -/
theorem retry_unpaid_invoices_counterexample :
    Customer.retry_unpaid_invoices [alreadyPaidOtherInvoice]
        = .error alreadyPaidOtherExc ∧
      alreadyPaidOtherExc.msg = "Invoice is already paid" :=
  ⟨rfl, rfl⟩

/-- Claim C4 (amended): an `InvalidRequestError` with message exactly
"Invoice is already paid" is swallowed and the loop completes; any error
that escapes is, unchanged, the retry outcome of one of the unpaid, open
invoices and is either not an `InvalidRequestError` or carries a different
message. -/
theorem retry_unpaid_invoices_amended (invoices : List RetryInvoice) :
    ((invoices.filter (fun inv => !inv.paid && !inv.closed)).all
        (fun inv => benign_retry_exc inv.retry_exc) = true →
      Customer.retry_unpaid_invoices invoices = .ok ()) ∧
    (∀ exc, Customer.retry_unpaid_invoices invoices = .error exc →
      ∃ inv ∈ invoices.filter (fun inv => !inv.paid && !inv.closed),
        inv.retry_exc = some exc ∧ benign_retry_exc (some exc) = false) := by
  constructor
  · intro h
    exact retry_loop_ok_of_all_benign _ h
  · intro exc h
    exact retry_loop_error_mem _ exc h

/-- Witness for C4: a benign "Invoice is already paid" invalid-request
outcome and a clean retry together complete without raising. -/
theorem retry_unpaid_invoices_amended_witness :
    Customer.retry_unpaid_invoices
        [alreadyPaidInvalidReqInvoice, retryOkInvoice] = .ok () :=
  (retry_unpaid_invoices_amended
    [alreadyPaidInvalidReqInvoice, retryOkInvoice]).1 (by decide)

/-- Claim C5: a valid, unprocessed event whose handler invocation raises a
`StripeError` ends with `processed` still false (the row is unchanged), an
`EventProcessingException` persisted with the error body and a stack trace,
the failure signal emitted with the error, and no exception propagating. -/
theorem event_process_stripe_error_isolated (e : Event) (exc : StripeExc)
    (hvalid : e.valid = some true) (hproc : e.processed = false)
    (hdot : e.event_type.data.contains '.' = true) :
    (e.process (.raisesStripe exc)).event = e ∧
    (e.process (.raisesStripe exc)).event.processed = false ∧
    (e.process (.raisesStripe exc)).exc_log =
      some (EventProcessingException.log exc) ∧
    (e.process (.raisesStripe exc)).failure_signal = some exc ∧
    (e.process (.raisesStripe exc)).raised = none := by
  have hmem : '.' ∈ e.event_type.data := by simpa using hdot
  simp [Event.process, hvalid, hproc, hmem]

/-- Witness for C5 at a concrete valid, unprocessed event and a concrete
provider error. -/
theorem event_process_stripe_error_isolated_witness :
    (confirmedEvent.process (.raisesStripe stripeBoomExc)).event = confirmedEvent ∧
    (confirmedEvent.process (.raisesStripe stripeBoomExc)).event.processed = false ∧
    (confirmedEvent.process (.raisesStripe stripeBoomExc)).exc_log =
      some { data := "errbody", message := "boom", has_traceback := true } ∧
    (confirmedEvent.process (.raisesStripe stripeBoomExc)).failure_signal =
      some stripeBoomExc ∧
    (confirmedEvent.process (.raisesStripe stripeBoomExc)).raised = none :=
  event_process_stripe_error_isolated confirmedEvent stripeBoomExc rfl rfl
    (by decide)

/-- Counterexample for C8: `Event.validate` has no one-shot guard — invoked
on an event whose `valid` is already confirmed true, with a re-fetched
payload that no longer matches, it re-runs and moves `valid` to false: a
third transition of the flag that the claim says can never occur. -/
theorem event_validate_counterexample :
    confirmedEvent.valid = some true ∧
      (confirmedEvent.validate "payload-b").valid = some false :=
  ⟨rfl, by decide⟩

/-- Claim C8 (amended): `validate` always leaves `valid` confirmed, and
confirms authenticity exactly when the stored payload equals the re-fetched
canonical payload, touching nothing else on the row; but the method itself
carries no guard, so invoked again on a confirmed event it re-runs the
comparison (one-shot use must be enforced by the caller). -/
theorem event_validate_amended (e : Event) (m : String) :
    ((e.validate m).valid = some true ↔ e.webhook_message = m) ∧
    (∃ b, (e.validate m).valid = some b) ∧
    (e.validate m).processed = e.processed ∧
    (e.validate m).webhook_message = e.webhook_message ∧
    (e.validate m).event_type = e.event_type := by
  refine ⟨?_, ⟨_, rfl⟩, rfl, rfl, rfl⟩
  simp [Event.validate]

/-- Witness for C8 (amended): a matching re-fetched payload confirms the
concrete event authentic. -/
theorem event_validate_amended_witness :
    (confirmedEvent.validate "payload-a").valid = some true :=
  (event_validate_amended confirmedEvent "payload-a").1.mpr rfl

/-- Helper: a character list is a `isPrefixOf` of itself followed by
anything. -/
theorem isPrefixOf_append_self {α : Type} [BEq α] [LawfulBEq α]
    (p rest : List α) : p.isPrefixOf (p ++ rest) = true := by
  induction p with
  | nil => simp [List.isPrefixOf]
  | cons a as ih => simp [List.isPrefixOf, ih]

/-- Helper: the "No such customer:" test accepts any message extending the
literal. -/
theorem message_startsWith_append (pre rest : String) :
    message_startsWith (pre ++ rest) pre = true := by
  rw [message_startsWith, String.data_append]
  exact isPrefixOf_append_self pre.data rest.data

/-- Helper: in this world model a purge call never raises — the only remote
failure is the "No such customer:" one, which the handler ignores — and it
always ends in the locally-purged state with the provider record gone. -/
theorem purgeWorld_purge_eq (w : PurgeWorld) (now : Nat) :
    w.purge now = .ok ⟨purge_locally w.customer now, true⟩ := by
  unfold PurgeWorld.purge Customer.purge api_delete_exc
  by_cases h : w.remote_deleted
  · simp [h, message_startsWith_append]
  · simp [h]

/-- Counterexample for C6: the second purge call does change the purged
state established by the first — `self.date_purged = timezone.now()` runs
unconditionally, so the second call re-stamps `date_purged` with its own
time (1 becomes 2) instead of leaving the first call's value. -/
theorem purge_twice_counterexample :
    purgeWorld0.purge 1 = .ok purgeWorld1 ∧
    purgeWorld1.purge 2 = .ok purgeWorld2 ∧
    purgeWorld1.customer.date_purged = some 1 ∧
    purgeWorld2.customer.date_purged = some 2 ∧
    purgeWorld2.customer.date_purged ≠ purgeWorld1.customer.date_purged := by
  refine ⟨rfl, ?_, rfl, rfl, by decide⟩
  rw [purgeWorld_purge_eq purgeWorld1 2]
  rfl

/-- Claim C6 (amended): after a purge, purging again completes without
raising (the remote "No such customer:" error is ignored), and leaves the
terminal purged shape — `date_purged` set, subscriber and default source
cleared, no sources — though `date_purged` now carries the second call's
timestamp rather than the first's. -/
theorem purge_twice_amended (w : PurgeWorld) (now1 now2 : Nat)
    (w1 : PurgeWorld) (_h1 : w.purge now1 = .ok w1) :
    ∃ w2, w1.purge now2 = .ok w2 ∧
      w2.customer.date_purged = some now2 ∧
      w2.customer.subscriber = none ∧
      w2.customer.default_source = none ∧
      w2.customer.sources = [] :=
  ⟨_, purgeWorld_purge_eq w1 now2, rfl, rfl, rfl, rfl⟩

/-- Witness for C6 (amended): the concrete double purge at times 1 then 2.
-/
theorem purge_twice_amended_witness :
    ∃ w2, purgeWorld1.purge 2 = .ok w2 ∧
      w2.customer.date_purged = some 2 ∧
      w2.customer.subscriber = none ∧
      w2.customer.default_source = none ∧
      w2.customer.sources = [] :=
  purge_twice_amended purgeWorld0 1 2 purgeWorld1 rfl

/-- Claim C9, failing input: `Card.remove` hit by an `InvalidRequestError`
whose message does not mean "already gone" still swallows it and deletes
the local row — the `if` in the source has no re-raise branch (unlike
`Customer.purge`), so nothing propagates to the caller. -/
theorem card_remove_swallows_other_invalid_request :
    Card.remove (some invalidReqOtherExc) = .ok true ∧
      message_startsWith invalidReqOtherExc.msg no_such_customer_msg = false :=
  ⟨rfl, by decide⟩

/-- Counterexample for C7: on an update (the transfer already exists), more
than the `status` field is refreshed — the `event` link is reassigned to
the triggering event (`transfer.event = event` runs on both paths), here
moving from the creation event to the new one. -/
theorem process_transfer_counterexample :
    (Transfer.process_transfer (some existingTransfer)
        (some transferPaidEvent) transferPayload1 "paid").1.event
      = some transferPaidEvent ∧
    existingTransfer.event = some transferCreatedEvent ∧
    some transferPaidEvent ≠ some transferCreatedEvent := by
  refine ⟨rfl, rfl, by decide⟩

/-- Claim C7 (amended): fee rows are materialized from the payload exactly
once, at creation, and are never re-created or modified on later syncs of
the same transfer; on an update only the `status` field and the `event`
link change (id, fees and all other mirrored columns stay), with `status`
taken from the payload, or from the remote status-refresh call exactly when
the triggering event's type is "transfer.updated". -/
theorem process_transfer_amended (event : Option TriggerEvent)
    (stripe_object : TransferPayload) (remote_status : String) :
    ((Transfer.process_transfer none event stripe_object
        remote_status).1.charge_fee_details
      = stripe_object.charge_fee_details.map transfer_fee_of_payload) ∧
    (∀ t,
      (Transfer.process_transfer (some t) event stripe_object
          remote_status).1.charge_fee_details = t.charge_fee_details ∧
      (Transfer.process_transfer (some t) event stripe_object
          remote_status).1.other_data = t.other_data ∧
      (Transfer.process_transfer (some t) event stripe_object
          remote_status).1.stripe_id = t.stripe_id ∧
      (Transfer.process_transfer (some t) event stripe_object
          remote_status).1.event = event ∧
      (Transfer.process_transfer (some t) event stripe_object
          remote_status).1.status =
        (if (Transfer.process_transfer (some t) event stripe_object
            remote_status).2 then remote_status else stripe_object.status)) ∧
    (∀ ex, ((Transfer.process_transfer ex event stripe_object
        remote_status).2 = true ↔
      ∃ ev, event = some ev ∧ ev.event_type = transfer_updated_type)) := by
  cases event with
  | none => simp [Transfer.process_transfer]
  | some ev =>
    by_cases hb : ev.event_type = transfer_updated_type
    · simp [Transfer.process_transfer, hb]
    · simp [Transfer.process_transfer, hb]

/-- Witness for C7 (amended): a concrete update triggered by a
"transfer.updated" event keeps the fee rows and reports the remote
status-refresh call. -/
theorem process_transfer_amended_witness :
    (Transfer.process_transfer (some existingTransfer)
        (some transferUpdatedEvent) transferPayload1
        "in_transit").1.charge_fee_details
      = existingTransfer.charge_fee_details ∧
    (Transfer.process_transfer (some existingTransfer)
        (some transferUpdatedEvent) transferPayload1 "in_transit").2 = true :=
  ⟨((process_transfer_amended (some transferUpdatedEvent) transferPayload1
      "in_transit").2.1 existingTransfer).1,
    ((process_transfer_amended (some transferUpdatedEvent) transferPayload1
      "in_transit").2.2 (some existingTransfer)).mpr
      ⟨transferUpdatedEvent, rfl, rfl⟩⟩

end Djstripe
